import Mathlib

/-!
# Verification of the piezoelectric window simulator core

Shallow embedding of the three core components of the simulator —
`EnergyStorage` (energy_storage.py), `VibrationGenerator` (generator.py) and
`PhysicsModel` (physics_model.py) — over exact rational arithmetic, together
with proofs of the specified behavioural properties.

Modelling conventions:
* Python floats are modelled as `ℚ` (the properties at stake are order /
  field-arithmetic facts, not rounding facts).
* `scipy.integrate.odeint` together with the stochastic derivative function
  `_vibration_equation` is modelled as an abstract `integrate` argument of
  `PhysicsModel.update`: the function that maps the state vector at the start
  of the step to the integrator's endpoint of the interval `[0, dt]`.  All
  theorems quantify over it, so they hold for every behaviour of the real
  integrator.
* The derived display-only quantities `damping_ratio` / `resonant_frequency`
  (which involve an irrational square root and only feed the abstracted
  derivative function and the UI) are not carried in the state; no claim
  mentions them.
* Passing `energy_storage=None` versus an actual store to
  `PhysicsModel.update` is modelled as an `Option ℚ` carrying the store's
  `state_of_charge`, the only attribute the method reads.  A Python object is
  truthy, so `some s` takes the `if energy_storage:` branch and `none` skips
  it.
* `collections.deque(maxlen=n)` is modelled as a `List` with append-right /
  evict-left behaviour (`pushBounded`).
-/

/-! ## Energy storage (src/energy_storage.py) -/

/-- State of `EnergyStorage`: `capacity`, `stored_energy`, `state_of_charge`,
`discharge_rate`, exactly the attributes set in `EnergyStorage.__init__`. -/
structure EnergyStorage where
  capacity : ℚ
  stored_energy : ℚ
  state_of_charge : ℚ
  discharge_rate : ℚ
  deriving Repr, DecidableEq

namespace EnergyStorage

/-- `EnergyStorage.__init__(capacity_joules, discharge_rate_watts)`:
stores the arguments unchanged, starts empty. -/
def init (capacity_joules discharge_rate_watts : ℚ) : EnergyStorage :=
  { capacity := capacity_joules
    stored_energy := 0
    state_of_charge := 0
    discharge_rate := discharge_rate_watts }

/-- `EnergyStorage.update_state_of_charge`:
`state_of_charge = stored_energy / capacity * 100`. -/
def update_state_of_charge (e : EnergyStorage) : EnergyStorage :=
  { e with state_of_charge := e.stored_energy / e.capacity * 100 }

/-- `EnergyStorage.update(dt, joules_to_add)`: subtract the discharge, add the
generated energy, then clamp below at `0` and above at `capacity`, finally
recompute the state of charge. -/
def update (e : EnergyStorage) (dt joules_to_add : ℚ) : EnergyStorage :=
  let s1 := e.stored_energy - e.discharge_rate * dt
  let s2 := s1 + joules_to_add
  let s3 := max 0 s2
  let s4 := min s3 e.capacity
  ({ e with stored_energy := s4 }).update_state_of_charge

/-- A finite sequence of `update` calls, each given as a `(dt, joules_to_add)`
pair, applied in order. -/
def runUpdates (e : EnergyStorage) (l : List (ℚ × ℚ)) : EnergyStorage :=
  l.foldl (fun a p => a.update p.1 p.2) e

end EnergyStorage

/-- The clamp of the specification: `clamp x lo hi` restricts `x` to
`[lo, hi]`. -/
def clamp (x lo hi : ℚ) : ℚ :=
  min (max x lo) hi

/-! ## Generator (src/generator.py) -/

/-- State of `VibrationGenerator`: the four configuration attributes plus the
retained `power_output` of the most recent `calculate_power` call. -/
structure VibrationGenerator where
  piezo_const : ℚ
  resistance : ℚ
  max_voltage : ℚ
  power_output : ℚ
  efficiency : ℚ
  deriving Repr, DecidableEq

namespace VibrationGenerator

/-- `VibrationGenerator.__init__(piezo_const, resistance, max_voltage,
efficiency)`: stores the arguments unchanged, `power_output` starts at 0. -/
def init (piezo_const resistance max_voltage efficiency : ℚ) :
    VibrationGenerator :=
  { piezo_const := piezo_const
    resistance := resistance
    max_voltage := max_voltage
    power_output := 0
    efficiency := efficiency }

/-- `VibrationGenerator.calculate_power(displacement, velocity)`:
`voltage = min(piezo_const * |velocity|, max_voltage)`;
`power_unlimited = voltage^2 / resistance`;
`power_output = min(power_unlimited, 10) * efficiency` (stored and returned).
The `displacement` argument is accepted but unused, as in the source.
Returns the mutated generator; the returned power is its `power_output`. -/
def calculate_power (g : VibrationGenerator) (displacement velocity : ℚ) :
    VibrationGenerator :=
  let voltage := min (g.piezo_const * |velocity|) g.max_voltage
  let power_unlimited := voltage ^ 2 / g.resistance
  { g with power_output := min power_unlimited 10 * g.efficiency }

/-- `VibrationGenerator.calculate_energy_this_cycle(dt)`:
returns `power_output * dt`; reads but never writes the generator state. -/
def calculate_energy_this_cycle (g : VibrationGenerator) (dt : ℚ) : ℚ :=
  g.power_output * dt

end VibrationGenerator

/-! ## Physics model (src/physics_model.py) -/

/-- Fixed quadratic damping coefficient `self.c2 = 0.5` set in
`PhysicsModel.__init__` (used only inside the abstracted derivative). -/
def quadraticDamping : ℚ := 1 / 2

/-- Fixed fail-safe displacement limit `self.max_displacement = 0.01`
set in `PhysicsModel.__init__` and never modified. -/
def maxDisplacementLimit : ℚ := 1 / 100

/-- Fixed electrical-damping floor `min_c_elec = 0.5` (local constant inside
`PhysicsModel.update`). -/
def minCElec : ℚ := 1 / 2

/-- State of `PhysicsModel`: parameters, the integrated state vector, clock,
failure flag and the power bookkeeping buffers.  The display-only derived
scalars `damping_ratio` / `resonant_frequency` (irrational square roots
feeding only the abstracted derivative and the UI) are omitted. -/
structure PhysicsModel where
  m : ℚ
  c1 : ℚ
  max_c_elec : ℚ
  c_elec : ℚ
  k : ℚ
  A : ℚ
  state : ℚ × ℚ
  time : ℚ
  wind_speed : ℚ
  displacement : ℚ
  velocity : ℚ
  failed : Bool
  power_history : List ℚ
  avg_power_window : List ℚ
  average_power : ℚ

namespace PhysicsModel

/-- `PhysicsModel.__init__(mass, damping, stiffness, area, max_elec_damping)`:
stores the parameters unchanged and zero-initialises the dynamic state. -/
def init (mass damping stiffness area max_elec_damping : ℚ) : PhysicsModel :=
  { m := mass
    c1 := damping
    max_c_elec := max_elec_damping
    c_elec := 0
    k := stiffness
    A := area
    state := (0, 0)
    time := 0
    wind_speed := 0
    displacement := 0
    velocity := 0
    failed := false
    power_history := []
    avg_power_window := []
    average_power := 0 }

/-- `PhysicsModel.update(wind_speed, dt, energy_storage)`.

`energy_storage` is `some chargeLevel` when a store is passed (the method
reads only its `state_of_charge`) and `none` for the default `None`.
`integrate` abstracts `odeint(self._vibration_equation, self.state,
[0, dt])[-1]`: it maps the state vector at the start of the step to the
endpoint returned by the integrator.

Mirrors the source line by line: early return when failed; set
`wind_speed`; dynamic electrical damping when a store is passed; integrate
when `wind_speed > 0`, otherwise reset the state vector to `(0, 0)`;
advance `time`; unpack `displacement` / `velocity`; failure check. -/
def update (p : PhysicsModel) (wind_speed dt : ℚ) (energy_storage : Option ℚ)
    (integrate : ℚ × ℚ → ℚ × ℚ) : PhysicsModel :=
  if p.failed = true then
    { p with wind_speed := 0, displacement := 0, velocity := 0 }
  else
    let p1 := { p with wind_speed := wind_speed }
    let p2 :=
      match energy_storage with
      | some charge_level =>
          { p1 with c_elec := p1.max_c_elec * (1 - charge_level / 100) + minCElec }
      | none => p1
    let newState := if p2.wind_speed > 0 then integrate p2.state else (0, 0)
    let p3 := { p2 with
                  state := newState
                  time := p2.time + dt
                  displacement := newState.1
                  velocity := newState.2 }
    if maxDisplacementLimit < |p3.displacement| then
      { p3 with failed := true }
    else p3

/-- One recorded `update` call: wind speed, `dt`, optional state of charge,
and the abstract integrator endpoint function for that call. -/
def runUpdates (p : PhysicsModel)
    (l : List (ℚ × ℚ × Option ℚ × (ℚ × ℚ → ℚ × ℚ))) : PhysicsModel :=
  l.foldl (fun a i => a.update i.1 i.2.1 i.2.2.1 i.2.2.2) p

/-- Append on a `collections.deque(maxlen=cap)`: push right, and when the
length would exceed `cap`, evict from the left. -/
def pushBounded (cap : ℕ) (l : List ℚ) (x : ℚ) : List ℚ :=
  let l2 := l ++ [x]
  if l2.length ≤ cap then l2 else l2.drop (l2.length - cap)

/-- `PhysicsModel.update_power_metrics(current_power)`: append
`current_power * 1000` to both bounded buffers (capacities 200 and
`60 * 5 = 300`) and recompute `average_power` as the mean of the
average-power window, `0` when it is empty. -/
def update_power_metrics (p : PhysicsModel) (current_power : ℚ) : PhysicsModel :=
  let ph := pushBounded 200 p.power_history (current_power * 1000)
  let aw := pushBounded (60 * 5) p.avg_power_window (current_power * 1000)
  { p with
      power_history := ph
      avg_power_window := aw
      average_power := if 0 < aw.length then aw.sum / (aw.length : ℚ) else 0 }

/-- A finite sequence of `update_power_metrics` calls, applied in order. -/
def runMetrics (p : PhysicsModel) (l : List ℚ) : PhysicsModel :=
  l.foldl update_power_metrics p

end PhysicsModel

/-- The last `min (l.length) n` elements of `l`, in order: what a bounded
FIFO buffer of capacity `n` holds after the elements of `l` were pushed in
order. -/
def lastN (n : ℕ) (l : List ℚ) : List ℚ :=
  l.drop (l.length - n)

/-! ## Helper lemmas: energy storage -/

/-- `update` never changes the capacity. -/
theorem EnergyStorage.update_capacity (e : EnergyStorage) (dt j : ℚ) :
    (e.update dt j).capacity = e.capacity := rfl

/-- `update` never changes the discharge rate. -/
theorem EnergyStorage.update_discharge_rate (e : EnergyStorage) (dt j : ℚ) :
    (e.update dt j).discharge_rate = e.discharge_rate := rfl

/-- The stored energy after `update`, written as one closed form. -/
theorem EnergyStorage.update_stored_energy (e : EnergyStorage) (dt j : ℚ) :
    (e.update dt j).stored_energy
      = min (max 0 (e.stored_energy - e.discharge_rate * dt + j)) e.capacity := rfl

/-- The state of charge after `update` is the clamped energy over capacity. -/
theorem EnergyStorage.update_state_of_charge_eq (e : EnergyStorage) (dt j : ℚ) :
    (e.update dt j).state_of_charge
      = (e.update dt j).stored_energy / e.capacity * 100 := rfl

/-- After any single `update` on a store with positive capacity, the stored
energy is in `[0, capacity]` and the state of charge is in `[0, 100]`. -/
theorem EnergyStorage.update_invariant (e : EnergyStorage) (hc : 0 < e.capacity)
    (dt j : ℚ) :
    0 ≤ (e.update dt j).stored_energy
    ∧ (e.update dt j).stored_energy ≤ e.capacity
    ∧ 0 ≤ (e.update dt j).state_of_charge
    ∧ (e.update dt j).state_of_charge ≤ 100 := by
  have h0 : 0 ≤ (e.update dt j).stored_energy := by
    rw [EnergyStorage.update_stored_energy]
    exact le_min (le_max_left _ _) hc.le
  have h1 : (e.update dt j).stored_energy ≤ e.capacity := by
    rw [EnergyStorage.update_stored_energy]
    exact min_le_right _ _
  refine ⟨h0, h1, ?_, ?_⟩
  · rw [EnergyStorage.update_state_of_charge_eq]
    positivity
  · rw [EnergyStorage.update_state_of_charge_eq]
    have hdiv : (e.update dt j).stored_energy / e.capacity ≤ 1 :=
      (div_le_one hc).mpr h1
    nlinarith

/-- **C2.** One `EnergyStorage.update(dt, joulesToAdd)` call on a store with
`capacity ≥ 0` sets `storedEnergy` to
`clamp(storedEnergy_old − dischargeRate·dt + joulesToAdd, 0, capacity)`:
the floor at 0 and the ceiling at `capacity` are applied only after both
the discharge subtraction and the charge addition, never between them, so a
transiently negative intermediate sum is recovered by a later-added charge. -/
theorem EnergyStorage.update_is_post_sum_clamp (e : EnergyStorage)
    (hcap : 0 ≤ e.capacity) (dt joules_to_add : ℚ) :
    (e.update dt joules_to_add).stored_energy
      = clamp (e.stored_energy - e.discharge_rate * dt + joules_to_add)
          0 e.capacity := by
  rw [EnergyStorage.update_stored_energy, clamp, max_comm]

/-- Witness for C2, on the spec's own scenario: `capacity = 50000`,
`dischargeRate = 5`, `storedEnergy = 0`, one `update(1.0, 0)` gives
`storedEnergy = 0` (clamped, not negative) and `stateOfCharge = 0`. -/
theorem EnergyStorage.update_is_post_sum_clamp_witness :
    (0 : ℚ) ≤ (EnergyStorage.init 50000 5).capacity
    ∧ ((EnergyStorage.init 50000 5).update 1 0).stored_energy
        = clamp ((EnergyStorage.init 50000 5).stored_energy
            - (EnergyStorage.init 50000 5).discharge_rate * 1 + 0)
            0 (EnergyStorage.init 50000 5).capacity
    ∧ ((EnergyStorage.init 50000 5).update 1 0).stored_energy = 0
    ∧ ((EnergyStorage.init 50000 5).update 1 0).state_of_charge = 0 :=
  ⟨by norm_num [EnergyStorage.init],
   EnergyStorage.update_is_post_sum_clamp _ (by norm_num [EnergyStorage.init]) 1 0,
   by rw [EnergyStorage.update_stored_energy]; norm_num [EnergyStorage.init],
   by
     rw [EnergyStorage.update_state_of_charge_eq, EnergyStorage.update_stored_energy]
     norm_num [EnergyStorage.init]⟩

/-- Invariant propagation for C6: any run of updates from a state already
inside the invariant stays inside it, and the capacity never changes. -/
theorem EnergyStorage.runUpdates_invariant (l : List (ℚ × ℚ)) :
    ∀ e : EnergyStorage, 0 < e.capacity →
      0 ≤ e.stored_energy → e.stored_energy ≤ e.capacity →
      0 ≤ e.state_of_charge → e.state_of_charge ≤ 100 →
      (e.runUpdates l).capacity = e.capacity
      ∧ 0 ≤ (e.runUpdates l).stored_energy
      ∧ (e.runUpdates l).stored_energy ≤ e.capacity
      ∧ 0 ≤ (e.runUpdates l).state_of_charge
      ∧ (e.runUpdates l).state_of_charge ≤ 100 := by
  induction l with
  | nil =>
      intro e _ h1 h2 h3 h4
      exact ⟨rfl, h1, h2, h3, h4⟩
  | cons x xs ih =>
      intro e hc h1 h2 h3 h4
      have hstep := EnergyStorage.update_invariant e hc x.1 x.2
      have hc' : 0 < (e.update x.1 x.2).capacity := by
        rw [EnergyStorage.update_capacity]; exact hc
      have := ih (e.update x.1 x.2) hc' hstep.1
        (by rw [EnergyStorage.update_capacity]; exact hstep.2.1)
        hstep.2.2.1 hstep.2.2.2
      rw [EnergyStorage.update_capacity] at this
      exact this

/-- **C6.** For every store constructed with `capacity > 0` and
`dischargeRate ≥ 0`, after every finite sequence of `update` calls with
`dt ≥ 0` and `joulesToAdd ≥ 0`, `storedEnergy` lies in `[0, capacity]` and
`stateOfCharge` lies in `[0, 100]`. -/
theorem EnergyStorage.runUpdates_bounds (capacity_joules discharge_rate_watts : ℚ)
    (hc : 0 < capacity_joules) (hr : 0 ≤ discharge_rate_watts)
    (l : List (ℚ × ℚ)) (hl : ∀ x ∈ l, 0 ≤ x.1 ∧ 0 ≤ x.2) :
    0 ≤ ((EnergyStorage.init capacity_joules discharge_rate_watts).runUpdates l).stored_energy
    ∧ ((EnergyStorage.init capacity_joules discharge_rate_watts).runUpdates l).stored_energy
        ≤ capacity_joules
    ∧ 0 ≤ ((EnergyStorage.init capacity_joules discharge_rate_watts).runUpdates l).state_of_charge
    ∧ ((EnergyStorage.init capacity_joules discharge_rate_watts).runUpdates l).state_of_charge
        ≤ 100 := by
  have h := EnergyStorage.runUpdates_invariant l
    (EnergyStorage.init capacity_joules discharge_rate_watts) hc le_rfl hc.le le_rfl
    (by norm_num [EnergyStorage.init])
  exact ⟨h.2.1, h.2.2.1, h.2.2.2.1, h.2.2.2.2⟩

/-- Witness for C6 at a concrete configuration and call sequence. -/
theorem EnergyStorage.runUpdates_bounds_witness :
    (0 : ℚ) < 50000 ∧ (0 : ℚ) ≤ 5
    ∧ (0 ≤ ((EnergyStorage.init 50000 5).runUpdates [(1, 0), (1, 20)]).stored_energy
       ∧ ((EnergyStorage.init 50000 5).runUpdates [(1, 0), (1, 20)]).stored_energy ≤ 50000
       ∧ 0 ≤ ((EnergyStorage.init 50000 5).runUpdates [(1, 0), (1, 20)]).state_of_charge
       ∧ ((EnergyStorage.init 50000 5).runUpdates [(1, 0), (1, 20)]).state_of_charge ≤ 100) :=
  ⟨by norm_num, by norm_num,
   EnergyStorage.runUpdates_bounds 50000 5 (by norm_num) (by norm_num)
     [(1, 0), (1, 20)] (by norm_num)⟩

/-- **C7.** Contrary to the claim, none of the three constructors rejects or
replaces zero or negative `mass`, `stiffness`, `loadResistance` or
`capacity`: every value passed is stored unchanged, so a zero divisor does
reach the division sites (`calculatePower` divides by `loadResistance`, the
state-of-charge computation divides by `capacity`, the integration step
divides by `mass`).  In the Python source these raise `ZeroDivisionError`
at runtime, e.g. `EnergyStorage(0, 5).update(0, 0)` and
`VibrationGenerator(15, 0, 100, 0.4).calculate_power(0, 1)`. -/
theorem constructors_store_degenerate_config :
    (∀ c r : ℚ, (EnergyStorage.init c r).capacity = c)
    ∧ (∀ pc r mv eff : ℚ, (VibrationGenerator.init pc r mv eff).resistance = r)
    ∧ (∀ mass damping stiffness area med : ℚ,
        (PhysicsModel.init mass damping stiffness area med).m = mass
        ∧ (PhysicsModel.init mass damping stiffness area med).k = stiffness)
    ∧ (EnergyStorage.init 0 5).capacity = 0
    ∧ ((VibrationGenerator.init 15 0 100 (2/5)).calculate_power 0 1).resistance = 0
    ∧ (PhysicsModel.init 0 10 100000 (1/2) 5).m = 0 :=
  ⟨fun _ _ => rfl, fun _ _ _ _ => rfl, fun _ _ _ _ _ => ⟨rfl, rfl⟩, rfl, rfl, rfl⟩

/-! ## Helper lemmas: generator -/

/-- The power stored (and returned) by `calculate_power`, as one closed
form. -/
theorem VibrationGenerator.calculate_power_output (g : VibrationGenerator)
    (displacement velocity : ℚ) :
    (g.calculate_power displacement velocity).power_output
      = min ((min (g.piezo_const * |velocity|) g.max_voltage) ^ 2 / g.resistance) 10
          * g.efficiency := rfl

/-- **C3.** For every generator configuration in the spec's parameter ranges
(`piezoConstant ≥ 0`, `loadResistance > 0`, `efficiency ≥ 0`; the claim
itself requires `loadResistance ≠ 0`) and every displacement and velocity,
`calculatePower` returns exactly
`min((min(piezoConstant·|velocity|, maxVoltage))² / loadResistance, 10) ·
efficiency`; consequently the result does not depend on the displacement
argument, is never negative, never exceeds `10 · efficiency` Watts, and is
monotonically non-decreasing in `|velocity|`. -/
theorem VibrationGenerator.calculate_power_spec (g : VibrationGenerator)
    (hpiezo : 0 ≤ g.piezo_const) (hres : 0 < g.resistance)
    (heff : 0 ≤ g.efficiency) :
    (∀ d v : ℚ, (g.calculate_power d v).power_output
        = min ((min (g.piezo_const * |v|) g.max_voltage) ^ 2 / g.resistance) 10
            * g.efficiency)
    ∧ (∀ d₁ d₂ v : ℚ,
        (g.calculate_power d₁ v).power_output = (g.calculate_power d₂ v).power_output)
    ∧ (∀ d v : ℚ, 0 ≤ (g.calculate_power d v).power_output)
    ∧ (∀ d v : ℚ, (g.calculate_power d v).power_output ≤ 10 * g.efficiency)
    ∧ (∀ d v₁ v₂ : ℚ, |v₁| ≤ |v₂| →
        (g.calculate_power d v₁).power_output ≤ (g.calculate_power d v₂).power_output) := by
  refine ⟨fun d v => rfl, fun d₁ d₂ v => rfl, ?_, ?_, ?_⟩
  · intro d v
    rw [VibrationGenerator.calculate_power_output]
    have hsq : (0 : ℚ) ≤ (min (g.piezo_const * |v|) g.max_voltage) ^ 2 / g.resistance :=
      div_nonneg (sq_nonneg _) hres.le
    exact mul_nonneg (le_min hsq (by norm_num)) heff
  · intro d v
    rw [VibrationGenerator.calculate_power_output]
    exact mul_le_mul_of_nonneg_right (min_le_right _ _) heff
  · intro d v₁ v₂ hv
    rw [VibrationGenerator.calculate_power_output, VibrationGenerator.calculate_power_output]
    have ha : g.piezo_const * |v₁| ≤ g.piezo_const * |v₂| :=
      mul_le_mul_of_nonneg_left hv hpiezo
    have hvolt : (min (g.piezo_const * |v₁|) g.max_voltage) ^ 2
        ≤ (min (g.piezo_const * |v₂|) g.max_voltage) ^ 2 := by
      rcases le_or_lt g.max_voltage (g.piezo_const * |v₁|) with hM | hM
      · rw [min_eq_right hM, min_eq_right (hM.trans ha)]
      · have h1 : min (g.piezo_const * |v₁|) g.max_voltage = g.piezo_const * |v₁| :=
          min_eq_left hM.le
        have h0 : (0 : ℚ) ≤ g.piezo_const * |v₁| :=
          mul_nonneg hpiezo (abs_nonneg _)
        have h2 : g.piezo_const * |v₁| ≤ min (g.piezo_const * |v₂|) g.max_voltage :=
          le_min ha hM.le
        rw [h1]
        exact pow_le_pow_left h0 h2 2
    have hdiv : (min (g.piezo_const * |v₁|) g.max_voltage) ^ 2 / g.resistance
        ≤ (min (g.piezo_const * |v₂|) g.max_voltage) ^ 2 / g.resistance :=
      (div_le_div_right hres).mpr hvolt
    exact mul_le_mul_of_nonneg_right (min_le_min hdiv le_rfl) heff

/-- Witness for C3, on the spec's own scenario: `piezoConstant = 25`,
`loadResistance = 10000`, `efficiency = 0.4`, `maxVoltage = 100`
(the source default), `velocity = 2` gives `powerOutput = 0.1` W. -/
theorem VibrationGenerator.calculate_power_spec_witness :
    ((0 : ℚ) ≤ (VibrationGenerator.init 25 10000 100 (2/5)).piezo_const
      ∧ (0 : ℚ) < (VibrationGenerator.init 25 10000 100 (2/5)).resistance
      ∧ (0 : ℚ) ≤ (VibrationGenerator.init 25 10000 100 (2/5)).efficiency)
    ∧ ((VibrationGenerator.init 25 10000 100 (2/5)).calculate_power 0 2).power_output
        = min ((min ((VibrationGenerator.init 25 10000 100 (2/5)).piezo_const * |(2 : ℚ)|)
            (VibrationGenerator.init 25 10000 100 (2/5)).max_voltage) ^ 2
              / (VibrationGenerator.init 25 10000 100 (2/5)).resistance) 10
            * (VibrationGenerator.init 25 10000 100 (2/5)).efficiency
    ∧ ((VibrationGenerator.init 25 10000 100 (2/5)).calculate_power 0 2).power_output
        = 1 / 10 :=
  ⟨⟨by norm_num [VibrationGenerator.init], by norm_num [VibrationGenerator.init],
    by norm_num [VibrationGenerator.init]⟩,
   (VibrationGenerator.calculate_power_spec _ (by norm_num [VibrationGenerator.init])
      (by norm_num [VibrationGenerator.init]) (by norm_num [VibrationGenerator.init])).1 0 2,
   by
     rw [VibrationGenerator.calculate_power_output]
     norm_num [VibrationGenerator.init]⟩

/-- **C9.** `calculateEnergyThisCycle(dt)` returns `powerOutput · dt` where
`powerOutput` is the value stored by the most recent `calculatePower` call;
on a freshly constructed generator it returns exactly `0` (the constructor
initialises `powerOutput = 0`, and in general whatever stale `powerOutput`
is current gets used).  Its type in the embedding is a plain `ℚ`-valued
function of the generator: it never mutates the generator's state, and it
is total, so it never signals a fault. -/
theorem VibrationGenerator.calculate_energy_this_cycle_spec :
    (∀ (g : VibrationGenerator) (dt : ℚ),
        g.calculate_energy_this_cycle dt = g.power_output * dt)
    ∧ (∀ (g : VibrationGenerator) (d v dt : ℚ),
        (g.calculate_power d v).calculate_energy_this_cycle dt
          = (g.calculate_power d v).power_output * dt)
    ∧ (∀ pc r mv eff dt : ℚ,
        (VibrationGenerator.init pc r mv eff).calculate_energy_this_cycle dt = 0) :=
  ⟨fun g dt => rfl, fun g d v dt => rfl,
   fun pc r mv eff dt => zero_mul dt⟩

/-! ## Helper lemmas: physics model -/

/-- On a failed model, `update` only zeroes `wind_speed`, `displacement` and
`velocity` and returns (the early-return branch of the source). -/
theorem PhysicsModel.update_of_failed (p : PhysicsModel) (h : p.failed = true)
    (ws dt : ℚ) (ch : Option ℚ) (integ : ℚ × ℚ → ℚ × ℚ) :
    p.update ws dt ch integ
      = { p with wind_speed := 0, displacement := 0, velocity := 0 } := by
  unfold PhysicsModel.update
  rw [if_pos h]

/-- A model that is failed with zeroed state vector stays so under any run
of further updates. -/
theorem PhysicsModel.runUpdates_frozen
    (l : List (ℚ × ℚ × Option ℚ × (ℚ × ℚ → ℚ × ℚ))) :
    ∀ p : PhysicsModel, p.failed = true →
      ((p.runUpdates l).failed = true
        ∧ ((p.runUpdates l).displacement = p.displacement ∨ (p.runUpdates l).displacement = 0)
        ∧ ((p.runUpdates l).velocity = p.velocity ∨ (p.runUpdates l).velocity = 0)) := by
  induction l with
  | nil => intro p hp; exact ⟨hp, Or.inl rfl, Or.inl rfl⟩
  | cons x xs ih =>
      intro p hp
      have hstep := PhysicsModel.update_of_failed p hp x.1 x.2.1 x.2.2.1 x.2.2.2
      have hrun : p.runUpdates (x :: xs)
          = ({ p with wind_speed := 0, displacement := 0, velocity := 0 } :
              PhysicsModel).runUpdates xs := by
        show (p.update x.1 x.2.1 x.2.2.1 x.2.2.2).runUpdates xs = _
        rw [hstep]
      have := ih { p with wind_speed := 0, displacement := 0, velocity := 0 } hp
      rw [hrun]
      rcases this with ⟨h1, h2, h3⟩
      refine ⟨h1, ?_, ?_⟩
      · rcases h2 with h2 | h2
        · exact Or.inr h2
        · exact Or.inr h2
      · rcases h3 with h3 | h3
        · exact Or.inr h3
        · exact Or.inr h3

/-- **C1.** For every `MechanicalState` in which `failed = true`, every
subsequent call to `update` — for every wind speed, `dt`, state-of-charge
input and integrator behaviour — leaves `failed = true` and sets
`displacement = 0` and `velocity = 0`; `failed` never transitions from
`true` back to `false`. -/
theorem PhysicsModel.failure_is_terminal (p : PhysicsModel) (hp : p.failed = true)
    (ws dt : ℚ) (ch : Option ℚ) (integ : ℚ × ℚ → ℚ × ℚ)
    (l : List (ℚ × ℚ × Option ℚ × (ℚ × ℚ → ℚ × ℚ))) :
    (((p.update ws dt ch integ).runUpdates l).failed = true)
    ∧ ((p.update ws dt ch integ).runUpdates l).displacement = 0
    ∧ ((p.update ws dt ch integ).runUpdates l).velocity = 0 := by
  have hstep := PhysicsModel.update_of_failed p hp ws dt ch integ
  have hfailed : (p.update ws dt ch integ).failed = true := by rw [hstep]; exact hp
  have h := PhysicsModel.runUpdates_frozen l (p.update ws dt ch integ) hfailed
  rcases h with ⟨h1, h2, h3⟩
  refine ⟨h1, ?_, ?_⟩
  · rcases h2 with h2 | h2
    · rw [h2, hstep]
    · exact h2
  · rcases h3 with h3 | h3
    · rw [h3, hstep]
    · exact h3

/-- Witness for C1 at a concrete failed state, one concrete call, and one
further call. -/
theorem PhysicsModel.failure_is_terminal_witness :
    ({ PhysicsModel.init 10 10 100000 (1/2) 5 with failed := true } :
        PhysicsModel).failed = true
    ∧ (((({ PhysicsModel.init 10 10 100000 (1/2) 5 with failed := true } :
          PhysicsModel).update 3 (1/60) (some 50) id).runUpdates
            [(0, 1/60, none, id)]).failed = true
        ∧ ((({ PhysicsModel.init 10 10 100000 (1/2) 5 with failed := true } :
          PhysicsModel).update 3 (1/60) (some 50) id).runUpdates
            [(0, 1/60, none, id)]).displacement = 0
        ∧ ((({ PhysicsModel.init 10 10 100000 (1/2) 5 with failed := true } :
          PhysicsModel).update 3 (1/60) (some 50) id).runUpdates
            [(0, 1/60, none, id)]).velocity = 0) :=
  ⟨rfl, PhysicsModel.failure_is_terminal _ rfl 3 (1/60) (some 50) id
    [(0, 1/60, none, id)]⟩

/-- On a non-failed model, supplying a store with charge level `s` sets the
electrical damping to `max_c_elec * (1 - s/100) + minCElec`, whatever the
other inputs and branches do. -/
theorem PhysicsModel.update_c_elec (p : PhysicsModel) (hf : p.failed = false)
    (ws dt s : ℚ) (integ : ℚ × ℚ → ℚ × ℚ) :
    (p.update ws dt (some s) integ).c_elec
      = p.max_c_elec * (1 - s / 100) + minCElec := by
  unfold PhysicsModel.update
  rw [if_neg (by simp [hf])]
  dsimp only
  split_ifs <;> rfl

/-- **C4.** For every non-failed model with `maxElectricalDamping ≥ 0` (the
spec's declared parameter range) and every state-of-charge input `s`
supplied to `update`, the electrical damping is set to
`maxElectricalDamping · (1 − s/100) + minCElec`; hence it is monotonically
non-increasing in `s`, equals `maxElectricalDamping + minElectricalDamping`
at `s = 0`, and equals `minElectricalDamping` (`minCElec = 0.5` N·s/m) at
`s = 100`. -/
theorem PhysicsModel.electrical_damping_feedback (p : PhysicsModel)
    (hf : p.failed = false) (hmax : 0 ≤ p.max_c_elec)
    (ws dt : ℚ) (integ : ℚ × ℚ → ℚ × ℚ) :
    (∀ s : ℚ, (p.update ws dt (some s) integ).c_elec
        = p.max_c_elec * (1 - s / 100) + minCElec)
    ∧ (∀ s₁ s₂ : ℚ, s₁ ≤ s₂ →
        (p.update ws dt (some s₂) integ).c_elec
          ≤ (p.update ws dt (some s₁) integ).c_elec)
    ∧ (p.update ws dt (some 0) integ).c_elec = p.max_c_elec + minCElec
    ∧ (p.update ws dt (some 100) integ).c_elec = minCElec := by
  refine ⟨fun s => PhysicsModel.update_c_elec p hf ws dt s integ, ?_, ?_, ?_⟩
  · intro s₁ s₂ h
    rw [PhysicsModel.update_c_elec p hf ws dt s₁ integ,
      PhysicsModel.update_c_elec p hf ws dt s₂ integ]
    have : p.max_c_elec * (1 - s₂ / 100) ≤ p.max_c_elec * (1 - s₁ / 100) :=
      mul_le_mul_of_nonneg_left (by linarith) hmax
    linarith
  · rw [PhysicsModel.update_c_elec p hf ws dt 0 integ]; ring
  · rw [PhysicsModel.update_c_elec p hf ws dt 100 integ]; ring

/-- Witness for C4 at a concrete non-failed model with
`maxElectricalDamping = 5`, evaluating the damping formula at `s = 0`. -/
theorem PhysicsModel.electrical_damping_feedback_witness :
    (PhysicsModel.init 10 10 100000 (1/2) 5).failed = false
    ∧ (0 : ℚ) ≤ (PhysicsModel.init 10 10 100000 (1/2) 5).max_c_elec
    ∧ ((PhysicsModel.init 10 10 100000 (1/2) 5).update 3 (1/60) (some 0) id).c_elec
        = (PhysicsModel.init 10 10 100000 (1/2) 5).max_c_elec + minCElec :=
  ⟨rfl, by norm_num [PhysicsModel.init],
   (PhysicsModel.electrical_damping_feedback _ rfl
      (by norm_num [PhysicsModel.init]) 3 (1/60) id).2.2.1⟩

/-- **C5 (amended).** `update(windSpeed, dt, stateOfCharge)` increases `time`
by exactly `dt` whenever `failed = false`; when `failed = true` the early
return skips the `time += dt` line, so `time` is left unchanged — the clock
stops together with the state after failure. -/
theorem PhysicsModel.update_time_clock (p : PhysicsModel) (ws dt : ℚ)
    (ch : Option ℚ) (integ : ℚ × ℚ → ℚ × ℚ) :
    (p.update ws dt ch integ).time
      = if p.failed = true then p.time else p.time + dt := by
  by_cases h : p.failed = true
  · rw [if_pos h, PhysicsModel.update_of_failed p h]
  · rw [if_neg h]
    unfold PhysicsModel.update
    rw [if_neg h]
    cases ch <;> (dsimp only; split_ifs <;> rfl)

/-- **C5 (counterexample).** A reachable failed state on which the next
`update` call does *not* advance `time` by `dt`: starting from the
constructor state, one `update` with wind speed 5 and an integrator endpoint
of `(0.02, 0)` trips the `0.01` displacement limit (`failed = true`); the
following `update` with `dt = 1/60` then leaves `time` unchanged instead of
increasing it by `1/60`. -/
theorem PhysicsModel.update_time_clock_cex :
    ((PhysicsModel.init 10 10 100000 (1/2) 5).update 5 (1/60) none
        (fun _ => (1/50, 0))).failed = true
    ∧ ¬ ((((PhysicsModel.init 10 10 100000 (1/2) 5).update 5 (1/60) none
            (fun _ => (1/50, 0))).update 5 (1/60) none (fun _ => (1/50, 0))).time
          = (((PhysicsModel.init 10 10 100000 (1/2) 5).update 5 (1/60) none
              (fun _ => (1/50, 0))).time + 1/60)) := by
  have key : ∀ q : PhysicsModel, q.failed = false →
      ((q.update 5 (1/60) none (fun _ => (1/50, 0))).failed = true
        ∧ (q.update 5 (1/60) none (fun _ => (1/50, 0))).time = q.time + 1/60) := by
    intro q hq
    unfold PhysicsModel.update
    rw [if_neg (by simp [hq])]
    dsimp only
    rw [if_pos (by norm_num : (5 : ℚ) > 0)]
    rw [if_pos (by norm_num [maxDisplacementLimit, abs_of_pos] :
      maxDisplacementLimit < |(1/50 : ℚ)|)]
    exact ⟨rfl, rfl⟩
  have h1 := key (PhysicsModel.init 10 10 100000 (1/2) 5) rfl
  refine ⟨h1.1, ?_⟩
  have h2 := PhysicsModel.update_of_failed _ h1.1 5 (1/60) none (fun _ => (1/50, 0))
  rw [h2]
  have ht : ((PhysicsModel.init 10 10 100000 (1/2) 5).update 5 (1/60) none
      (fun _ => (1/50, 0))).time = 1/60 := by
    rw [h1.2]; norm_num [PhysicsModel.init]
  show ¬ (((PhysicsModel.init 10 10 100000 (1/2) 5).update 5 (1/60) none
      (fun _ => (1/50, 0))).time
    = ((PhysicsModel.init 10 10 100000 (1/2) 5).update 5 (1/60) none
        (fun _ => (1/50, 0))).time + 1/60)
  rw [ht]
  norm_num

/-- **C8.** For every non-failed model, every `dt ≥ 0` and every
state-of-charge input (including none), a single call
`update(0, dt, charge)` with wind speed 0 resets the state vector:
`displacement = 0`, `velocity = 0` (momentum zeroed instantaneously, no
integration performed — the integrator argument is irrelevant), `time`
increases by exactly `dt`, and `failed` remains `false`. -/
theorem PhysicsModel.update_zero_wind (p : PhysicsModel) (hf : p.failed = false)
    (dt : ℚ) (hdt : 0 ≤ dt) (ch : Option ℚ) (integ : ℚ × ℚ → ℚ × ℚ) :
    (p.update 0 dt ch integ).displacement = 0
    ∧ (p.update 0 dt ch integ).velocity = 0
    ∧ (p.update 0 dt ch integ).time = p.time + dt
    ∧ (p.update 0 dt ch integ).failed = false := by
  unfold PhysicsModel.update
  rw [if_neg (by simp [hf])]
  cases ch <;>
    (dsimp only
     rw [if_neg (by norm_num : ¬ ((0 : ℚ) > 0))]
     rw [if_neg (by norm_num [maxDisplacementLimit] :
       ¬ (maxDisplacementLimit < |(((0 : ℚ), (0 : ℚ)) : ℚ × ℚ).1|))]
     exact ⟨rfl, rfl, rfl, hf⟩)

/-- Witness for C8 at a concrete non-failed model, `dt = 1/60` and a
charge input of 50. -/
theorem PhysicsModel.update_zero_wind_witness :
    (PhysicsModel.init 10 10 100000 (1/2) 5).failed = false
    ∧ (0 : ℚ) ≤ 1/60
    ∧ (((PhysicsModel.init 10 10 100000 (1/2) 5).update 0 (1/60) (some 50) id).displacement = 0
       ∧ ((PhysicsModel.init 10 10 100000 (1/2) 5).update 0 (1/60) (some 50) id).velocity = 0
       ∧ ((PhysicsModel.init 10 10 100000 (1/2) 5).update 0 (1/60) (some 50) id).time
           = (PhysicsModel.init 10 10 100000 (1/2) 5).time + 1/60
       ∧ ((PhysicsModel.init 10 10 100000 (1/2) 5).update 0 (1/60) (some 50) id).failed = false) :=
  ⟨rfl, by norm_num,
   PhysicsModel.update_zero_wind _ rfl (1/60) (by norm_num) (some 50) id⟩

/-! ## Helper lemmas: power metrics buffers -/

/-- `pushBounded` in closed form: append, then drop from the left whatever
exceeds the capacity. -/
theorem PhysicsModel.pushBounded_eq (cap : ℕ) (l : List ℚ) (x : ℚ) :
    PhysicsModel.pushBounded cap l x
      = (l ++ [x]).drop ((l ++ [x]).length - cap) := by
  show (if (l ++ [x]).length ≤ cap then l ++ [x]
    else (l ++ [x]).drop ((l ++ [x]).length - cap)) = _
  split_ifs with h
  · rw [Nat.sub_eq_zero_of_le h, List.drop_zero]
  · rfl

/-- Pushing onto a buffer that holds the last `cap` elements of `L` yields
the buffer holding the last `cap` elements of `L ++ [x]`. -/
theorem PhysicsModel.pushBounded_lastN (cap : ℕ) (hcap : 0 < cap)
    (L : List ℚ) (x : ℚ) :
    PhysicsModel.pushBounded cap (lastN cap L) x = lastN cap (L ++ [x]) := by
  rw [PhysicsModel.pushBounded_eq]
  unfold lastN
  rcases le_or_lt L.length cap with h | h
  · rw [Nat.sub_eq_zero_of_le h, List.drop_zero]
  · have hlen : (L.drop (L.length - cap)).length = cap := by
      rw [List.length_drop]; omega
    have hlen2 : ((L.drop (L.length - cap)) ++ [x]).length - cap = 1 := by
      rw [List.length_append, hlen]; simp
    rw [hlen2, List.drop_append_of_le_length (by rw [hlen]; omega), List.drop_drop]
    rw [List.length_append,
      List.drop_append_of_le_length (by simp; omega : L.length + [x].length - cap ≤ L.length)]
    congr 2
    simp
    omega

/-- `pushBounded` never returns the empty list when the capacity is
positive. -/
theorem PhysicsModel.pushBounded_ne_nil (cap : ℕ) (hcap : 0 < cap)
    (l : List ℚ) (x : ℚ) :
    PhysicsModel.pushBounded cap l x ≠ [] := by
  rw [PhysicsModel.pushBounded_eq]
  intro hcontra
  rw [List.drop_eq_nil_iff] at hcontra
  rw [List.length_append] at hcontra
  simp at hcontra
  omega

/-- The two phrasings of the rolling mean agree: testing emptiness via the
length (as the source does) is testing the list itself. -/
theorem averageIfForms (aw : List ℚ) :
    (if 0 < aw.length then aw.sum / (aw.length : ℚ) else 0)
      = (if aw = [] then 0 else aw.sum / (aw.length : ℚ)) := by
  rcases eq_or_ne aw [] with h | h
  · subst h; simp
  · rw [if_neg h, if_pos (List.length_pos.mpr h)]

/-- Invariant propagation for C10: if a model's two buffers hold the last
200 / 300 scaled samples of a prefix `M` and its `average_power` is the
rolling mean of its window, then after any further run of
`update_power_metrics` calls the same holds for the extended prefix. -/
theorem PhysicsModel.runMetrics_invariant (l : List ℚ) :
    ∀ (p : PhysicsModel) (M : List ℚ),
      p.power_history = lastN 200 (M.map (fun x => x * 1000)) →
      p.avg_power_window = lastN 300 (M.map (fun x => x * 1000)) →
      p.average_power = (if p.avg_power_window = [] then 0
        else p.avg_power_window.sum / (p.avg_power_window.length : ℚ)) →
      ((p.runMetrics l).power_history
          = lastN 200 ((M ++ l).map (fun x => x * 1000))
        ∧ (p.runMetrics l).avg_power_window
            = lastN 300 ((M ++ l).map (fun x => x * 1000))
        ∧ (p.runMetrics l).average_power
            = (if (p.runMetrics l).avg_power_window = [] then 0
              else (p.runMetrics l).avg_power_window.sum
                / ((p.runMetrics l).avg_power_window.length : ℚ))) := by
  induction l with
  | nil =>
      intro p M h1 h2 h3
      exact ⟨by simpa using h1, by simpa using h2, h3⟩
  | cons x xs ih =>
      intro p M h1 h2 h3
      have hph : (p.update_power_metrics x).power_history
          = lastN 200 ((M ++ [x]).map (fun y => y * 1000)) := by
        show PhysicsModel.pushBounded 200 p.power_history (x * 1000) = _
        rw [h1, PhysicsModel.pushBounded_lastN 200 (by norm_num)]
        simp
      have haw : (p.update_power_metrics x).avg_power_window
          = lastN 300 ((M ++ [x]).map (fun y => y * 1000)) := by
        show PhysicsModel.pushBounded (60 * 5) p.avg_power_window (x * 1000) = _
        rw [h2]
        rw [show (60 * 5 : ℕ) = 300 from rfl]
        rw [PhysicsModel.pushBounded_lastN 300 (by norm_num)]
        simp
      have hap : (p.update_power_metrics x).average_power
          = (if (p.update_power_metrics x).avg_power_window = [] then 0
            else (p.update_power_metrics x).avg_power_window.sum
              / ((p.update_power_metrics x).avg_power_window.length : ℚ)) := by
        show (if 0 < (PhysicsModel.pushBounded (60 * 5) p.avg_power_window
            (x * 1000)).length
          then (PhysicsModel.pushBounded (60 * 5) p.avg_power_window (x * 1000)).sum
            / ((PhysicsModel.pushBounded (60 * 5) p.avg_power_window (x * 1000)).length : ℚ)
          else 0) = _
        rw [averageIfForms]
        rfl
      have h := ih (p.update_power_metrics x) (M ++ [x]) hph haw hap
      have hassoc : (M ++ [x]) ++ xs = M ++ x :: xs := by
        rw [List.append_assoc]; rfl
      rw [hassoc] at h
      exact h

/-- **C10.** Starting from a freshly constructed model, after every finite
sequence of `updatePowerMetrics(p_1), …, updatePowerMetrics(p_n)` calls,
`powerHistory` contains exactly the last `min(n, 200)` values `p_i · 1000`
in call order (oldest evicted first, FIFO), `averagePowerWindow` contains
exactly the last `min(n, 300)` values `p_i · 1000`, and `averagePower`
equals the arithmetic mean of `averagePowerWindow`'s current contents
(`0` if it is empty). -/
theorem PhysicsModel.update_power_metrics_spec
    (mass damping stiffness area max_elec_damping : ℚ) (l : List ℚ) :
    (((PhysicsModel.init mass damping stiffness area max_elec_damping).runMetrics
        l).power_history = lastN 200 (l.map (fun x => x * 1000)))
    ∧ (((PhysicsModel.init mass damping stiffness area max_elec_damping).runMetrics
        l).avg_power_window = lastN 300 (l.map (fun x => x * 1000)))
    ∧ (((PhysicsModel.init mass damping stiffness area max_elec_damping).runMetrics
        l).average_power
        = (if ((PhysicsModel.init mass damping stiffness area
              max_elec_damping).runMetrics l).avg_power_window = [] then 0
          else ((PhysicsModel.init mass damping stiffness area
              max_elec_damping).runMetrics l).avg_power_window.sum
            / (((PhysicsModel.init mass damping stiffness area
                max_elec_damping).runMetrics l).avg_power_window.length : ℚ))) := by
  have h := PhysicsModel.runMetrics_invariant l
    (PhysicsModel.init mass damping stiffness area max_elec_damping) []
    rfl rfl (by simp [PhysicsModel.init])
  simpa using h
